import Mathlib

/-!
# Shallow embedding of the b2b-ingress-manager core

This development embeds the Go sources of `sven-borkert/b2b-ingress-manager`:

* `internal/models/models.go` — the data model, `SourceDefinition.Validate`
  and `CompareIPs`;
* `internal/nftables/nftables.go` — `ApplyRules`,
  `generateExpressionsForRule` and `byteOrder` (the rule compiler);
* `internal/database/database.go` — the GORM-backed `Service` write path
  (`Create*`/`Update*`/`Delete*`, `LogAvailabilityChange`, `GetActiveRules`);
* `internal/api/api.go` — the Gin handlers relevant to the claims
  (`deleteBackendSet`, `updateAddress`, `createRule`).

Go standard-library functions the sources call (`net.ParseIP`,
`net.ParseCIDR`, `net.IP.To4`, `net.CIDRMask`, `net.IPMask.Size`,
`net.IP.Mask`) are translated here from their stdlib definitions, byte for
byte, over `List Char` / `List Nat`.  A Go `net.IP` is a byte slice; it is
modelled as `List Nat` (`GoIP`), with Go `nil` as `Option.none`.

Conventions for the database embedding:

* GORM `gorm.Model` soft deletes (`DeletedAt`) are modelled as plain list
  removal: this repository never queries with `Unscoped`, so soft-deleted
  rows are invisible to every query in the code and removal is
  observationally equivalent.
* Auto-incremented primary keys are modelled by a single `nextID` counter
  in the store state.
* Each write runs inside a GORM transaction in the source; failure of the
  primary statement or of the `ConfigChange` insert is modelled by the
  boolean failure-injection parameters `opFails` / `ccFails`, and a
  rollback returns the caller's original state.
  `LogAvailabilityChange` is the one write that does *not* open a
  transaction in the source (two autocommitted statements); its model
  reflects that.
-/

namespace B2B

/-! ## Go `net` standard library model -/

/-- A Go `net.IP` byte slice (Go `nil` is represented by `Option.none`
at use sites). -/
abbrev GoIP := List Nat

/-- The `v4InV6Prefix` from Go `net`: `ParseIP` stores IPv4 addresses in
16-byte IPv4-in-IPv6 form. -/
def v4InV6Prefix : List Nat := [0, 0, 0, 0, 0, 0, 0, 0, 0, 0, 0xff, 0xff]

/-- Go `net.IPv4(a,b,c,d)`: the 16-byte IPv4-in-IPv6 representation. -/
def goIPv4 (a b c d : Nat) : GoIP := v4InV6Prefix ++ [a, b, c, d]

/-- Go `net.dtoi`: parse a decimal prefix.  Returns `(n, chars consumed,
ok)`; overflow at `0xFFFFFF` (the `big` constant) yields
`(big, i+1, false)`. -/
def dtoiAux : List Char → Nat → Nat → Nat × Nat × Bool
  | [], n, i => if i = 0 then (0, 0, false) else (n, i, true)
  | c :: rest, n, i =>
    if '0' ≤ c ∧ c ≤ '9' then
      let n' := n * 10 + (c.toNat - 48)
      if n' ≥ 0xFFFFFF then (0xFFFFFF, i + 1, false)
      else dtoiAux rest n' (i + 1)
    else if i = 0 then (0, 0, false) else (n, i, true)

def dtoi (s : List Char) : Nat × Nat × Bool := dtoiAux s 0 0

/-- Hex digit value, as in Go `net.xtoi`'s three digit ranges. -/
def hexVal (c : Char) : Option Nat :=
  if '0' ≤ c ∧ c ≤ '9' then some (c.toNat - 48)
  else if 'a' ≤ c ∧ c ≤ 'f' then some (c.toNat - 97 + 10)
  else if 'A' ≤ c ∧ c ≤ 'F' then some (c.toNat - 65 + 10)
  else none

/-- Go `net.xtoi`: parse a hexadecimal prefix.  Overflow at `0xFFFFFF`
yields `(0, i, false)`. -/
def xtoiAux : List Char → Nat → Nat → Nat × Nat × Bool
  | [], n, i => if i = 0 then (0, i, false) else (n, i, true)
  | c :: rest, n, i =>
    match hexVal c with
    | some v =>
      let n' := n * 16 + v
      if n' ≥ 0xFFFFFF then (0, i, false)
      else xtoiAux rest n' (i + 1)
    | none => if i = 0 then (0, i, false) else (n, i, true)

def xtoi (s : List Char) : Nat × Nat × Bool := xtoiAux s 0 0

/-- Go `net.parseIPv4` field loop: `fieldsLeft` fields remain, `acc` holds
the bytes parsed so far.  Rejects empty input, missing dots, fields above
255 and (as in Go 1.17+) non-single-digit fields with a leading zero. -/
def parseIPv4Aux : Nat → List Char → List Nat → Option (List Nat)
  | 0, s, acc => if s = [] then some acc else none
  | k + 1, s, acc =>
    if s = [] then none
    else
      match (if acc = [] then some s
             else match s with
                  | '.' :: r => some r
                  | _ => none) with
      | none => none
      | some s' =>
        let t := dtoi s'
        if ¬t.2.2 ∨ t.1 > 0xFF then none
        else if t.2.1 > 1 ∧ s'.head? = some '0' then none
        else parseIPv4Aux k (s'.drop t.2.1) (acc ++ [t.1])

/-- Go `net.parseIPv4`: dotted-quad parse, result in 16-byte
IPv4-in-IPv6 form (`net.IPv4`). -/
def parseIPv4Chars (s : List Char) : Option GoIP :=
  (parseIPv4Aux 4 s []).map (fun p => v4InV6Prefix ++ p)

/-- One step state of Go `net.parseIPv6`'s main loop, fuelled by the
input length (each iteration consumes at least one character).
`i = acc.length` is the number of bytes parsed, `ellipsis` the byte
position of `::` if seen. -/
def parseIPv6Loop : Nat → List Char → Nat → Option Nat → List Nat →
    Option (Nat × Option Nat × List Nat × List Char)
  | 0, _, _, _, _ => none
  | fuel + 1, s, i, ellipsis, acc =>
    if i < 16 then
      let t := xtoi s
      if ¬t.2.2 ∨ t.1 > 0xFFFF then none
      else if (s.drop t.2.1).head? = some '.' ∧ t.2.1 < s.length then
        -- trailing IPv4 in the last 4 bytes
        if (ellipsis = none ∧ i ≠ 12) ∨ i + 4 > 16 then none
        else
          match parseIPv4Chars s with
          | none => none
          | some ip4 => some (i + 4, ellipsis, acc ++ ip4.drop 12, [])
      else
        let acc' := acc ++ [t.1 / 256, t.1 % 256]
        let i' := i + 2
        let s' := s.drop t.2.1
        if s' = [] then some (i', ellipsis, acc', [])
        else if s'.head? ≠ some ':' ∨ s'.length = 1 then none
        else
          let s2 := s'.drop 1
          if s2.head? = some ':' then
            if ellipsis.isSome then none
            else
              let s3 := s2.drop 1
              if s3 = [] then some (i', some i', acc', [])
              else parseIPv6Loop fuel s3 i' (some i') acc'
          else parseIPv6Loop fuel s2 i' ellipsis acc'
    else some (i, ellipsis, acc, s)

/-- Go `net.parseIPv6`: leading `::` handling, main loop, then ellipsis
expansion (`ip[0:ellipsis] ++ zeros ++ ip[ellipsis:i]`). -/
def parseIPv6Chars (s : List Char) : Option GoIP :=
  let start : Option (Option Nat × List Char) :=
    match s with
    | ':' :: ':' :: r => some (some 0, r)
    | _ => some (none, s)
  match start with
  | none => none
  | some (ellipsis0, s0) =>
    if ellipsis0 = some 0 ∧ s0 = [] then some (List.replicate 16 0)
    else
      match parseIPv6Loop (s0.length + 1) s0 0 ellipsis0 [] with
      | none => none
      | some (i, ellipsis, acc, rest) =>
        if rest ≠ [] then none
        else if i < 16 then
          match ellipsis with
          | none => none
          | some e => some (acc.take e ++ List.replicate (16 - i) 0 ++ acc.drop e)
        else if ellipsis.isSome then none
        else some acc

/-- Go `net.ParseIP`: scan for the first `'.'` or `':'` and dispatch to
the IPv4 or IPv6 parser; `nil` (`none`) otherwise. -/
def parseIPChars (s : List Char) : Option GoIP :=
  match s.find? (fun c => c = '.' ∨ c = ':') with
  | some '.' => parseIPv4Chars s
  | some ':' => parseIPv6Chars s
  | _ => none

def parseIP (s : String) : Option GoIP := parseIPChars s.data

/-- Go `net.IP.To4`: 4-byte form for a 4-byte slice or a 16-byte
IPv4-in-IPv6 slice, `nil` otherwise. -/
def to4 (ip : GoIP) : Option GoIP :=
  if ip.length = 4 then some ip
  else if ip.length = 16 ∧ ip.take 12 = v4InV6Prefix then some (ip.drop 12)
  else none

/-- Go `net.CIDRMask` byte construction: `ones` leading one-bits. -/
def cidrMaskBytes : Nat → Nat → List Nat
  | 0, _ => []
  | l + 1, n =>
    if n ≥ 8 then 0xff :: cidrMaskBytes l (n - 8)
    else (0xff - (0xff >>> n)) :: cidrMaskBytes l 0

/-- Go `net.CIDRMask ones bits` (callers here always pass `ones : Nat`,
so the `ones < 0` rejection is vacuous). -/
def cidrMask (ones bits : Nat) : Option (List Nat) :=
  if bits ≠ 32 ∧ bits ≠ 128 then none
  else if ones > bits then none
  else some (cidrMaskBytes (bits / 8) ones)

/-- Count the leading one-bits of a byte and return the byte shifted past
them, as Go `simpleMaskLength`'s inner loop (`for v&0x80 != 0`). -/
def leadingOnes8 : Nat → Nat → Nat × Nat
  | 0, v => (0, v)
  | f + 1, v =>
    if v &&& 0x80 ≠ 0 then
      let r := leadingOnes8 f ((v <<< 1) &&& 0xff)
      (r.1 + 1, r.2)
    else (0, v)

/-- Go `net.simpleMaskLength`: prefix length of a canonical mask,
`none` for a non-contiguous mask (Go's `-1`). -/
def simpleMaskLength : List Nat → Option Nat
  | [] => some 0
  | v :: rest =>
    if v = 0xff then (simpleMaskLength rest).map (· + 8)
    else
      let r := leadingOnes8 8 v
      if r.2 ≠ 0 then none
      else if rest.all (· = 0) then some r.1 else none

/-- Go `net.IPMask.Size`: `(ones, bits)`, or `(0, 0)` for a
non-contiguous mask. -/
def maskSize (m : List Nat) : Nat × Nat :=
  match simpleMaskLength m with
  | none => (0, 0)
  | some ones => (ones, m.length * 8)

/-- Go `net.IP.Mask`: adapt 16-byte/4-byte mixes, then byte-wise `and`;
`nil` on length mismatch. -/
def ipMask (ip mask : List Nat) : Option (List Nat) :=
  let mask' := if mask.length = 16 ∧ ip.length = 4 ∧
                  mask.take 12 = List.replicate 12 0xff
               then mask.drop 12 else mask
  let ip' := if mask'.length = 4 ∧ ip.length = 16 ∧ ip.take 12 = v4InV6Prefix
             then ip.drop 12 else ip
  if ip'.length ≠ mask'.length then none
  else some (List.zipWith (· &&& ·) ip' mask')

/-- A Go `net.IPNet` as produced by `net.ParseCIDR`. -/
structure IPNet where
  ip : List Nat
  mask : List Nat
deriving DecidableEq, Repr

/-- Split at the first `'/'`, as `ParseCIDR` does. -/
def splitFirstSlash : List Char → Option (List Char × List Char)
  | [] => none
  | c :: r =>
    if c = '/' then some ([], r)
    else (splitFirstSlash r).map (fun p => (c :: p.1, p.2))

/-- Go `net.ParseCIDR` (the `*IPNet` result; the unmasked address result
is unused by this repository). -/
def parseCIDRChars (s : List Char) : Option IPNet :=
  match splitFirstSlash s with
  | none => none
  | some (addr, maskStr) =>
    let ipAndLen : Option GoIP × Nat :=
      match parseIPv4Chars addr with
      | some ip => (some ip, 4)
      | none => (parseIPv6Chars addr, 16)
    match ipAndLen.1 with
    | none => none
    | some ip =>
      let t := dtoi maskStr
      if ¬t.2.2 ∨ t.2.1 ≠ maskStr.length ∨ t.1 > 8 * ipAndLen.2 then none
      else
        match cidrMask t.1 (8 * ipAndLen.2) with
        | none => none
        | some m => some ⟨(ipMask ip m).getD [], m⟩

def parseCIDR (s : String) : Option IPNet := parseCIDRChars s.data

/-! ## Data model (`internal/models/models.go`)

Each struct is embedded as its row of scalar fields.  GORM association
slices (`Backend.Addresses`, `Backend.BackendSets`, `BackendSet.Backends`)
live in the store state (`DBState.addresses`, `DBState.backendSetBackends`)
rather than inside the row, matching the relational schema; `Rule` keeps
its preloaded `SourceDefinition` because the compiler reads it from the
struct. -/

structure Backend where
  id : Nat
  name : String
  description : String
deriving DecidableEq, Repr

structure Address where
  id : Nat
  backendID : Nat
  ip : String
  port : Int
  available : Bool
  lastChecked : Nat
deriving DecidableEq, Repr

structure BackendSet where
  id : Nat
  name : String
  description : String
deriving DecidableEq, Repr

structure SourceDefinition where
  id : Nat
  name : String
  description : String
  type : String
  ipAddress : String
  subnet : String
  rangeStart : String
  rangeEnd : String
deriving DecidableEq, Repr

structure Rule where
  id : Nat
  sourceDefinitionID : Nat
  sourceDefinition : SourceDefinition
  destinationPort : Int
  protocol : String
  backendSetID : Nat
  priority : Int
  enabled : Bool
deriving DecidableEq, Repr

structure ConfigChange where
  id : Nat
  changeType : String
  entityType : String
  entityID : Nat
  description : String
  changedBy : String
deriving DecidableEq, Repr

structure AvailabilityLog where
  id : Nat
  addressID : Nat
  available : Bool
  checkTime : Nat
  checkError : String
deriving DecidableEq, Repr

/-- `models.CompareIPs`, translated loop for loop (byte-lexicographic with
length tie-breaking). -/
def CompareIPs : List Nat → List Nat → Int
  | [], ip2 => if ip2.length > 0 then -1 else 0
  | _ :: _, [] => 1
  | a :: as, b :: bs => if a < b then -1 else if a > b then 1 else CompareIPs as bs

/-- `models.SourceDefinition.Validate`. -/
def SourceDefinition.Validate (s : SourceDefinition) : Bool :=
  match s.type with
  | "ip" => (parseIP s.ipAddress).isSome
  | "subnet" => (parseCIDR s.subnet).isSome
  | "range" =>
    match parseIP s.rangeStart, parseIP s.rangeEnd with
    | some start, some stop => decide (CompareIPs start stop ≤ 0)
    | _, _ => false
  | _ => false

/-! ## Rule compiler (`internal/nftables/nftables.go`) -/

/-- `expr.PayloadBase` values used by the compiler. -/
inductive PayloadBase where
  | transportHeader
  | networkHeader
deriving DecidableEq, Repr

/-- The nftables expressions emitted by `generateExpressionsForRule`,
one constructor per `expr.*` struct (with the registers and data the code
sets).  Byte-slice fields that can be Go `nil` are `Option`s. -/
inductive Expr where
  | metaL4proto (register : Nat)
  | cmpEq (register : Nat) (data : Option (List Nat))
  | payload (destRegister : Nat) (base : PayloadBase) (offset length : Nat)
  | bitwise (sourceRegister destRegister length : Nat)
      (mask : Option (List Nat)) (xorData : List Nat)
  | rangeEq (register : Nat) (fromData toData : Option (List Nat))
  | immediate (register : Nat) (data : Option (List Nat))
  | dnat (family regAddrMin regProtoMin : Nat)
deriving DecidableEq, Repr

/-- Go `uint16(n)` for `n : int`: two's-complement truncation. -/
def toUInt16go (n : Int) : Nat := (n.emod 65536).toNat

/-- `nftables.byteOrder`: big-endian bytes of a `uint16`. -/
def byteOrder (port : Nat) : List Nat := [(port >>> 8) % 256, port % 256]

/-- The source-address `switch rule.SourceDefinition.Type` of
`generateExpressionsForRule`.  Note the Go switch has no `default`
case: an unrecognized type falls through, emitting no source match and
no error. -/
def genSourceExprs (sd : SourceDefinition) : Except String (List Expr) :=
  match sd.type with
  | "ip" =>
    match parseIP sd.ipAddress with
    | none => .error ("invalid IP address: " ++ sd.ipAddress)
    | some ip =>
      match to4 ip with
      | none => .error ("not an IPv4 address: " ++ sd.ipAddress)
      | some ip4 =>
        .ok [.payload 1 .networkHeader 12 4, .cmpEq 1 (some ip4)]
  | "subnet" =>
    match parseCIDR sd.subnet with
    | none => .error ("invalid subnet: " ++ sd.subnet)
    | some ipnet =>
      let ones := (maskSize ipnet.mask).1
      let mask := cidrMask ones 32
      .ok [.payload 1 .networkHeader 12 4,
           .bitwise 1 1 4 mask [0, 0, 0, 0],
           .cmpEq 1 (to4 ipnet.ip)]
  | "range" =>
    match (parseIP sd.rangeStart).bind to4, (parseIP sd.rangeEnd).bind to4 with
    | some startIP, some endIP =>
      .ok [.payload 1 .networkHeader 12 4, .rangeEq 1 (some startIP) (some endIP)]
    | _, _ =>
      .error ("invalid IP range: " ++ sd.rangeStart ++ " - " ++ sd.rangeEnd)
  | _ => .ok []

/-- `nftables.generateExpressionsForRule`.  The process-local PRNG call
`m.rng.Intn(len(addresses))` is modelled by the `pick` parameter reduced
modulo the list length; `ApplyRules` only calls this with a non-empty
list (Go `Intn(0)` would panic), so the `none` lookup branch is
unreachable from `applyRules`. -/
def generateExpressionsForRule (rule : Rule) (addresses : List Address)
    (pick : Nat) : Except String (List Expr) :=
  match (match rule.protocol with
         | "tcp" => some 6
         | "udp" => some 17
         | _ => none : Option Nat) with
  | none => .error ("unsupported protocol: " ++ rule.protocol)
  | some protoNum =>
    let protoExprs : List Expr := [.metaL4proto 1, .cmpEq 1 (some [protoNum])]
    let portExprs : List Expr :=
      [.payload 1 .transportHeader 2 2,
       .cmpEq 1 (some (byteOrder (toUInt16go rule.destinationPort)))]
    match genSourceExprs rule.sourceDefinition with
    | .error e => .error e
    | .ok srcExprs =>
      match addresses.get? (pick % addresses.length) with
      | none => .error "empty address list"
      | some selectedAddress =>
        match (parseIP selectedAddress.ip).bind to4 with
        | none => .error ("invalid backend IP address: " ++ selectedAddress.ip)
        | some destIP =>
          .ok (protoExprs ++ portExprs ++ srcExprs ++
               [.immediate 1 (some destIP),
                .immediate 2 (some (byteOrder (toUInt16go selectedAddress.port))),
                .dnat 2 1 2])

/-- A kernel rule as `ApplyRules` adds it to the chain. -/
structure KernelRule where
  exprs : List Expr
  userData : String
deriving DecidableEq, Repr

/-- Lookup in the Go `map[uint][]models.Address`: a missing key yields
the zero value `nil`, i.e. the empty list. -/
def lookupAddrMap (m : List (Nat × List Address)) (k : Nat) : List Address :=
  match m.find? (fun p => p.1 = k) with
  | some p => p.2
  | none => []

/-- The per-rule loop of `nftables.ApplyRules`: skip a rule whose
backend-set has no available address, skip a rule whose expression
generation errors, otherwise append the compiled rule tagged
`rule_id:<n>`.  `picks i` models the PRNG draw for the rule at input
position `i`. -/
def applyRulesAux : List Rule → Nat → (Nat → Nat) → List (Nat × List Address) →
    List KernelRule
  | [], _, _, _ => []
  | r :: rest, i, picks, m =>
    let backendAddresses := lookupAddrMap m r.backendSetID
    if backendAddresses.length = 0 then applyRulesAux rest (i + 1) picks m
    else
      match generateExpressionsForRule r backendAddresses (picks i) with
      | .error _ => applyRulesAux rest (i + 1) picks m
      | .ok exprs =>
        ⟨exprs, "rule_id:" ++ toString r.id⟩ :: applyRulesAux rest (i + 1) picks m

/-- `nftables.ApplyRules`: the list of rules the committed transaction
leaves in the (previously flushed) chain, in order. -/
def ApplyRules (rules : List Rule) (m : List (Nat × List Address))
    (picks : Nat → Nat) : List KernelRule :=
  applyRulesAux rules 0 picks m

/-! ## ConfigStore (`internal/database/database.go`)

`DBState` is the visible database state.  Every write returns
`Option String × DBState`: the error (Go `error`) and the state after the
call.  A rolled-back transaction returns the caller's original state. -/

structure DBState where
  backends : List Backend
  addresses : List Address
  backendSets : List BackendSet
  /-- the `backend_set_backends` join table: `(backend_set_id, backend_id)`. -/
  backendSetBackends : List (Nat × Nat)
  sourceDefinitions : List SourceDefinition
  rules : List Rule
  configChanges : List ConfigChange
  availabilityLogs : List AvailabilityLog
  /-- auto-increment id supply. -/
  nextID : Nat
deriving DecidableEq, Repr

/-- GORM `Create` id assignment: a zero primary key takes the next
auto-increment value, a preset one is inserted as given. -/
def createdID (st : DBState) (provided : Nat) : Nat :=
  if provided = 0 then st.nextID else provided

def bumpNextID (st : DBState) (provided : Nat) : Nat :=
  if provided = 0 then st.nextID + 1 else st.nextID

/-- The `models.ConfigChange` row a write appends. -/
def mkConfigChange (s : DBState) (changeType entityType : String)
    (entityID : Nat) (description changedBy : String) : ConfigChange :=
  ⟨s.nextID, changeType, entityType, entityID, description, changedBy⟩

/-- The tail every transactional write shares:
`tx.Create(&models.ConfigChange{...})` followed by `tx.Commit()`, with
`tx.Rollback()` (returning the original state) if the insert fails. -/
def finishTx (stOrig st1 : DBState) (ccFails : Bool) (ck et : String)
    (eid : Nat) (d cb : String) : Option String × DBState :=
  if ccFails then (some "config change insert failed", stOrig)
  else (none, { st1 with
                configChanges :=
                  st1.configChanges ++ [mkConfigChange st1 ck et eid d cb],
                nextID := st1.nextID + 1 })

/-- GORM `Save` for a backend: primary key zero creates, otherwise
updates the matching row with all fields.  Returns the state and the
saved row's id. -/
def saveBackend (st : DBState) (b : Backend) : DBState × Nat :=
  if b.id = 0 then
    ({ st with backends := st.backends ++ [{ b with id := st.nextID }],
               nextID := st.nextID + 1 }, st.nextID)
  else
    ({ st with backends := st.backends.map (fun x => if x.id = b.id then b else x) },
     b.id)

def saveAddress (st : DBState) (a : Address) : DBState × Nat :=
  if a.id = 0 then
    ({ st with addresses := st.addresses ++ [{ a with id := st.nextID }],
               nextID := st.nextID + 1 }, st.nextID)
  else
    ({ st with addresses := st.addresses.map (fun x => if x.id = a.id then a else x) },
     a.id)

def saveBackendSet (st : DBState) (bs : BackendSet) : DBState × Nat :=
  if bs.id = 0 then
    ({ st with backendSets := st.backendSets ++ [{ bs with id := st.nextID }],
               nextID := st.nextID + 1 }, st.nextID)
  else
    ({ st with backendSets :=
        st.backendSets.map (fun x => if x.id = bs.id then bs else x) }, bs.id)

def saveSourceDefinition (st : DBState) (sd : SourceDefinition) : DBState × Nat :=
  if sd.id = 0 then
    ({ st with
        sourceDefinitions := st.sourceDefinitions ++ [{ sd with id := st.nextID }],
        nextID := st.nextID + 1 }, st.nextID)
  else
    ({ st with sourceDefinitions :=
        st.sourceDefinitions.map (fun x => if x.id = sd.id then sd else x) }, sd.id)

def saveRule (st : DBState) (r : Rule) : DBState × Nat :=
  if r.id = 0 then
    ({ st with rules := st.rules ++ [{ r with id := st.nextID }],
               nextID := st.nextID + 1 }, st.nextID)
  else
    ({ st with rules := st.rules.map (fun x => if x.id = r.id then r else x) },
     r.id)

/-- `Service.CreateBackend`.  (Association slices of the bound struct are
not modelled; `opFails` covers insert failures such as the `name` unique
constraint.) -/
def CreateBackend (st : DBState) (b : Backend) (changedBy : String)
    (opFails ccFails : Bool) : Option String × DBState :=
  if opFails then (some "insert failed", st)
  else
    let newID := createdID st b.id
    let st1 := { st with backends := st.backends ++ [{ b with id := newID }],
                         nextID := bumpNextID st b.id }
    finishTx st st1 ccFails "create" "backend" newID
      ("Created backend " ++ b.name) changedBy

/-- `Service.UpdateBackend`. -/
def UpdateBackend (st : DBState) (b : Backend) (changedBy : String)
    (opFails ccFails : Bool) : Option String × DBState :=
  if opFails then (some "save failed", st)
  else
    let s := saveBackend st b
    finishTx st s.1 ccFails "update" "backend" s.2
      ("Updated backend " ++ b.name) changedBy

/-- `Service.DeleteBackend`: cascade join rows and addresses, then the
backend, then the change row. -/
def DeleteBackend (st : DBState) (id : Nat) (changedBy : String)
    (opFails ccFails : Bool) : Option String × DBState :=
  match st.backends.find? (fun x => x.id = id) with
  | none => (some "record not found", st)
  | some backend =>
    if opFails then (some "delete failed", st)
    else
      let st1 := { st with
        backendSetBackends := st.backendSetBackends.filter (fun p => p.2 ≠ id),
        addresses := st.addresses.filter (fun a => a.backendID ≠ id),
        backends := st.backends.filter (fun x => x.id ≠ id) }
      finishTx st st1 ccFails "delete" "backend" id
        ("Deleted backend " ++ backend.name) changedBy

/-- `Service.CreateAddress`: forces `BackendID := backendID` then
creates. -/
def CreateAddress (st : DBState) (backendID : Nat) (a : Address)
    (changedBy : String) (opFails ccFails : Bool) : Option String × DBState :=
  let a1 := { a with backendID := backendID }
  if opFails then (some "insert failed", st)
  else
    let newID := createdID st a1.id
    let st1 := { st with addresses := st.addresses ++ [{ a1 with id := newID }],
                         nextID := bumpNextID st a1.id }
    finishTx st st1 ccFails "create" "address" newID
      ("Added address " ++ a.ip ++ ":" ++ toString a.port ++
       " to backend ID " ++ toString backendID) changedBy

/-- `Service.UpdateAddress`. -/
def UpdateAddress (st : DBState) (a : Address) (changedBy : String)
    (opFails ccFails : Bool) : Option String × DBState :=
  if opFails then (some "save failed", st)
  else
    let s := saveAddress st a
    finishTx st s.1 ccFails "update" "address" s.2
      ("Updated address " ++ a.ip ++ ":" ++ toString a.port) changedBy

/-- `Service.DeleteAddress`. -/
def DeleteAddress (st : DBState) (id : Nat) (changedBy : String)
    (opFails ccFails : Bool) : Option String × DBState :=
  match st.addresses.find? (fun x => x.id = id) with
  | none => (some "record not found", st)
  | some address =>
    if opFails then (some "delete failed", st)
    else
      let st1 := { st with addresses := st.addresses.filter (fun x => x.id ≠ id) }
      finishTx st st1 ccFails "delete" "address" id
        ("Deleted address " ++ address.ip ++ ":" ++ toString address.port)
        changedBy

/-- `Service.CreateBackendSet`: create the row, then (when the bound
struct carries members) `Association("Backends").Replace`. -/
def CreateBackendSet (st : DBState) (bs : BackendSet) (memberIDs : List Nat)
    (changedBy : String) (opFails ccFails : Bool) : Option String × DBState :=
  if opFails then (some "insert failed", st)
  else
    let newID := createdID st bs.id
    let join1 :=
      if memberIDs = [] then st.backendSetBackends
      else st.backendSetBackends.filter (fun p => p.1 ≠ newID) ++
           memberIDs.map (fun bid => (newID, bid))
    let st1 := { st with backendSets := st.backendSets ++ [{ bs with id := newID }],
                         backendSetBackends := join1,
                         nextID := bumpNextID st bs.id }
    finishTx st st1 ccFails "create" "backend_set" newID
      ("Created backend set " ++ bs.name) changedBy

/-- `Service.UpdateBackendSet`: `Association("Backends").Clear`, then
`Save` (which re-adds the struct's member associations). -/
def UpdateBackendSet (st : DBState) (bs : BackendSet) (memberIDs : List Nat)
    (changedBy : String) (opFails ccFails : Bool) : Option String × DBState :=
  if opFails then (some "save failed", st)
  else
    let join1 := st.backendSetBackends.filter (fun p => p.1 ≠ bs.id)
    let s := saveBackendSet { st with backendSetBackends := join1 } bs
    let st1 := { s.1 with backendSetBackends :=
                  s.1.backendSetBackends ++ memberIDs.map (fun bid => (s.2, bid)) }
    finishTx st st1 ccFails "update" "backend_set" s.2
      ("Updated backend set " ++ bs.name) changedBy

/-- `Service.DeleteBackendSet`: refuse (before opening the transaction)
while any rule — enabled or not — references the set. -/
def DeleteBackendSet (st : DBState) (id : Nat) (changedBy : String)
    (opFails ccFails : Bool) : Option String × DBState :=
  match st.backendSets.find? (fun x => x.id = id) with
  | none => (some "record not found", st)
  | some backendSet =>
    let count := (st.rules.filter (fun r => r.backendSetID = id)).length
    if count > 0 then
      (some ("cannot delete backend set: it is used by " ++ toString count ++
             " rules"), st)
    else if opFails then (some "delete failed", st)
    else
      let st1 := { st with
        backendSetBackends := st.backendSetBackends.filter (fun p => p.1 ≠ id),
        backendSets := st.backendSets.filter (fun x => x.id ≠ id) }
      finishTx st st1 ccFails "delete" "backend_set" id
        ("Deleted backend set " ++ backendSet.name) changedBy

/-- `Service.CreateSourceDefinition`: validates before the transaction. -/
def CreateSourceDefinition (st : DBState) (sd : SourceDefinition)
    (changedBy : String) (opFails ccFails : Bool) : Option String × DBState :=
  if ¬sd.Validate then (some "invalid source definition parameters", st)
  else if opFails then (some "insert failed", st)
  else
    let newID := createdID st sd.id
    let st1 := { st with
      sourceDefinitions := st.sourceDefinitions ++ [{ sd with id := newID }],
      nextID := bumpNextID st sd.id }
    finishTx st st1 ccFails "create" "source_definition" newID
      ("Created source definition " ++ sd.name) changedBy

/-- `Service.UpdateSourceDefinition`: validates before the transaction. -/
def UpdateSourceDefinition (st : DBState) (sd : SourceDefinition)
    (changedBy : String) (opFails ccFails : Bool) : Option String × DBState :=
  if ¬sd.Validate then (some "invalid source definition parameters", st)
  else if opFails then (some "save failed", st)
  else
    let s := saveSourceDefinition st sd
    finishTx st s.1 ccFails "update" "source_definition" s.2
      ("Updated source definition " ++ sd.name) changedBy

/-- `Service.DeleteSourceDefinition`: refuse while any rule — enabled or
not — references the definition. -/
def DeleteSourceDefinition (st : DBState) (id : Nat) (changedBy : String)
    (opFails ccFails : Bool) : Option String × DBState :=
  match st.sourceDefinitions.find? (fun x => x.id = id) with
  | none => (some "record not found", st)
  | some sourceDefinition =>
    let count := (st.rules.filter (fun r => r.sourceDefinitionID = id)).length
    if count > 0 then
      (some ("cannot delete source definition: it is used by " ++
             toString count ++ " rules"), st)
    else if opFails then (some "delete failed", st)
    else
      let st1 := { st with
        sourceDefinitions := st.sourceDefinitions.filter (fun x => x.id ≠ id) }
      finishTx st st1 ccFails "delete" "source_definition" id
        ("Deleted source definition " ++ sourceDefinition.name) changedBy

/-- `Service.CreateRule`. -/
def CreateRule (st : DBState) (r : Rule) (changedBy : String)
    (opFails ccFails : Bool) : Option String × DBState :=
  if opFails then (some "insert failed", st)
  else
    let newID := createdID st r.id
    let st1 := { st with rules := st.rules ++ [{ r with id := newID }],
                         nextID := bumpNextID st r.id }
    finishTx st st1 ccFails "create" "rule" newID
      ("Created rule with priority " ++ toString r.priority) changedBy

/-- `Service.UpdateRule`. -/
def UpdateRule (st : DBState) (r : Rule) (changedBy : String)
    (opFails ccFails : Bool) : Option String × DBState :=
  if opFails then (some "save failed", st)
  else
    let s := saveRule st r
    finishTx st s.1 ccFails "update" "rule" s.2
      ("Updated rule with priority " ++ toString r.priority) changedBy

/-- `Service.DeleteRule`. -/
def DeleteRule (st : DBState) (id : Nat) (changedBy : String)
    (opFails ccFails : Bool) : Option String × DBState :=
  match st.rules.find? (fun x => x.id = id) with
  | none => (some "record not found", st)
  | some rule =>
    if opFails then (some "delete failed", st)
    else
      let st1 := { st with rules := st.rules.filter (fun x => x.id ≠ id) }
      finishTx st st1 ccFails "delete" "rule" id
        ("Deleted rule with priority " ++ toString rule.priority) changedBy

/-- The `available`/`last_checked` update statement of
`Service.LogAvailabilityChange` (`Updates` with a `WHERE id = ?`). -/
def updateAvailability (st : DBState) (addressID : Nat) (available : Bool)
    (now : Nat) : DBState :=
  { st with addresses := st.addresses.map (fun a =>
      if a.id = addressID then { a with available := available, lastChecked := now }
      else a) }

/-- `Service.LogAvailabilityChange`.  Unlike every other write in the
service, this one opens no transaction: the address update and the log
insert are two separately autocommitted statements, so a failure of the
second (`createFails`) leaves the first persisted. -/
def LogAvailabilityChange (st : DBState) (addressID : Nat) (available : Bool)
    (checkError : String) (now : Nat) (updateFails createFails : Bool) :
    Option String × DBState :=
  if updateFails then (some "update failed", st)
  else
    let st1 := updateAvailability st addressID available now
    if createFails then (some "insert failed", st1)
    else
      (none, { st1 with
        availabilityLogs := st1.availabilityLogs ++
          [⟨st1.nextID, addressID, available, now, checkError⟩],
        nextID := st1.nextID + 1 })

/-- The rows `Service.GetActiveRules` filters for: `enabled = true`. -/
def enabledRules (st : DBState) : List Rule := st.rules.filter (fun r => r.enabled)

/-- Sortedness by descending priority. -/
def priorityDescSorted (l : List Rule) : Prop :=
  l.Pairwise (fun a b => b.priority ≤ a.priority)

/-- The result contract of `Service.GetActiveRules`.  Its SQL is
`WHERE enabled = true ORDER BY priority DESC`: the single sort key is
`priority`, so the database determines the relative order of
equal-priority rows and any priority-descending permutation of the
enabled rows is an admissible result. -/
def GetActiveRulesAdmits (st : DBState) (out : List Rule) : Prop :=
  out.Perm (enabledRules st) ∧ priorityDescSorted out

/-! ## REST handlers (`internal/api/api.go`)

A handler is modelled after its `:id` parameter has parsed (the
`ParseUint` failure path returns 400 without touching the store) and
after JSON binding succeeded, since the claims concern requests that
reach the store.  The response is the status code and the `error` field
of the JSON body, when one is sent. -/

structure ApiResponse where
  status : Nat
  errMsg : Option String
deriving DecidableEq, Repr

/-- `api.deleteBackendSet`: every store error — including the in-use
refusal — is mapped to HTTP 500; success is 204. -/
def deleteBackendSetHandler (st : DBState) (id : Nat) (clientIP : String)
    (opFails ccFails : Bool) : ApiResponse × DBState :=
  match DeleteBackendSet st id clientIP opFails ccFails with
  | (some msg, st') => (⟨500, some msg⟩, st')
  | (none, st') => (⟨204, none⟩, st')

/-- `api.updateAddress`: look up the existing row (404 if absent), force
the body's `ID` and `BackendID` from the path id and the existing row,
reject an unparsable IP with 400, then `Service.UpdateAddress`. -/
def updateAddressHandler (st : DBState) (id : Nat) (body : Address)
    (clientIP : String) (opFails ccFails : Bool) : ApiResponse × DBState :=
  match st.addresses.find? (fun x => x.id = id) with
  | none => (⟨404, some "Address not found"⟩, st)
  | some existingAddress =>
    let address := { body with id := id, backendID := existingAddress.backendID }
    if (parseIP address.ip).isNone then (⟨400, some "Invalid IP address"⟩, st)
    else
      match UpdateAddress st address clientIP opFails ccFails with
      | (some msg, st') => (⟨500, some msg⟩, st')
      | (none, st') => (⟨200, none⟩, st')

/-- `api.createRule`: the only validation is that the two foreign-key
ids are non-zero; success is 201. -/
def createRuleHandler (st : DBState) (body : Rule) (clientIP : String)
    (opFails ccFails : Bool) : ApiResponse × DBState :=
  if body.sourceDefinitionID = 0 then
    (⟨400, some "Source definition ID is required"⟩, st)
  else if body.backendSetID = 0 then
    (⟨400, some "Backend set ID is required"⟩, st)
  else
    match CreateRule st body clientIP opFails ccFails with
    | (some msg, st') => (⟨500, some msg⟩, st')
    | (none, st') => (⟨201, none⟩, st')

/-- `api.updateRule`: forces the bound rule's `ID` from the path id,
then performs the same two non-zero foreign-key checks as `createRule`
(no other validation) before `Service.UpdateRule`; success is 200. -/
def updateRuleHandler (st : DBState) (id : Nat) (body : Rule)
    (clientIP : String) (opFails ccFails : Bool) : ApiResponse × DBState :=
  if body.sourceDefinitionID = 0 then
    (⟨400, some "Source definition ID is required"⟩, st)
  else if body.backendSetID = 0 then
    (⟨400, some "Backend set ID is required"⟩, st)
  else
    match UpdateRule st { body with id := id } clientIP opFails ccFails with
    | (some msg, st') => (⟨500, some msg⟩, st')
    | (none, st') => (⟨200, none⟩, st')

/-! ## Derived notions used in the theorem statements -/

/-- Whether an `Except` result is a success (Go: the returned `error` is
`nil`). -/
def exceptOk : Except String (List Expr) → Bool
  | .ok _ => true
  | .error _ => false

/-- The `BackendID` of the first stored address with the given id. -/
def backendOf (st : DBState) (id : Nat) : Option Nat :=
  (st.addresses.find? (fun x => x.id = id)).map (fun a => a.backendID)

/-- The id-ascending tie-break order the specification claims for
equal-priority rules. -/
def idAscOnTies (a b : Rule) : Prop := a.priority = b.priority → a.id < b.id

/-- The key fields of a `ConfigChange` row. -/
def ccKey (c : ConfigChange) : String × String × Nat :=
  (c.changeType, c.entityType, c.entityID)

/-- Exactly one `ConfigChange` row with the given key was appended
between `st` and `st'`. -/
def ccAppended (st st' : DBState) (ck et : String) (eid : Nat) : Prop :=
  st'.configChanges.take st.configChanges.length = st.configChanges ∧
  (st'.configChanges.drop st.configChanges.length).map ccKey = [(ck, et, eid)]

/-! ## Concrete instances for witnesses and counterexamples -/

def sdIP1 : SourceDefinition := ⟨1, "s1", "", "ip", "10.0.0.1", "", "", ""⟩

def sdRevRange : SourceDefinition :=
  ⟨2, "s2", "", "range", "", "", "10.0.0.2", "10.0.0.1"⟩

def sdV6 : SourceDefinition := ⟨3, "s3", "", "ip", "::1", "", "", ""⟩

def sdSubnet : SourceDefinition := ⟨4, "s4", "", "subnet", "10.1.0.0/16", "", "", ""⟩

def addr10 : Address := ⟨1, 1, "10.0.0.10", 80, true, 0⟩

def ruleAll : Rule := ⟨1, 1, sdIP1, 80, "all", 1, 100, true⟩

def ruleTcp : Rule := ⟨2, 1, sdIP1, 80, "tcp", 1, 100, true⟩

def picks0 : Nat → Nat := fun _ => 0

def ruleP5a : Rule := ⟨1, 1, sdIP1, 80, "tcp", 1, 5, true⟩

def ruleP5b : Rule := ⟨2, 1, sdIP1, 81, "tcp", 1, 5, true⟩

def stTie : DBState := ⟨[], [], [], [], [sdIP1], [ruleP5a, ruleP5b], [], [], 3⟩

def bsS : BackendSet := ⟨1, "S", ""⟩

def stC3 : DBState := ⟨[], [], [bsS], [], [sdIP1], [ruleP5a], [], [], 5⟩

def stC5 : DBState := ⟨[], [addr10], [], [], [], [], [], [], 7⟩

def stEmpty : DBState := ⟨[], [], [], [], [], [], [], [], 1⟩

def rulePort0 : Rule := ⟨0, 1, sdIP1, 0, "tcp", 1, 0, true⟩

def rulePort70000 : Rule := ⟨1, 1, sdIP1, 70000, "tcp", 1, 0, true⟩

def addrExisting : Address := ⟨1, 7, "10.0.0.10", 80, true, 0⟩

def stC10 : DBState := ⟨[], [addrExisting], [], [], [], [], [], [], 9⟩

def addrBody : Address := ⟨0, 9, "10.0.0.11", 81, true, 0⟩

def backendW : Backend := ⟨0, "web-servers", "Web server pool"⟩

def rulePort4464 : Rule := ⟨1, 1, sdIP1, 4464, "tcp", 1, 0, true⟩

/-! ## Claims -/

/-- **C7.** For every input rule list, compiling with an availability map
that yields an empty (or absent) address list for every BackendSet emits
zero kernel rules, regardless of how many rules are in the input:
`ApplyRules` drops every rule whose backend-address list is empty. -/
theorem C7_empty_availability_emits_no_rules (rules : List Rule)
    (m : List (Nat × List Address)) (picks : Nat → Nat)
    (h : ∀ k, lookupAddrMap m k = []) : ApplyRules rules m picks = [] := by
  unfold ApplyRules
  suffices h2 : ∀ i, applyRulesAux rules i picks m = [] by exact h2 0
  induction rules with
  | nil => intro i; rfl
  | cons r rest ih =>
    intro i
    simp only [applyRulesAux, h r.backendSetID]
    simpa using ih (i + 1)

/-- Witness for C7 at a concrete input: two rules against the absent
(empty) availability map compile to zero kernel rules. -/
theorem C7_empty_availability_emits_no_rules_witness :
    ApplyRules [ruleTcp, ruleAll] [] picks0 = [] :=
  C7_empty_availability_emits_no_rules [ruleTcp, ruleAll] [] picks0
    (fun _ => rfl)

/-- **C1.** The claim says a rule with protocol `all` compiles to a kernel
rule without an L4-protocol match.  The code disagrees with its own data
model (whose check constraint admits `protocol = 'all'`):
`generateExpressionsForRule`'s protocol switch has only `tcp` and `udp`
cases and errors with "unsupported protocol" on `all`, so `ApplyRules`
skips the rule entirely — here evaluated at an enabled `all` rule with
one available backend address. -/
theorem C1_protocol_all_rule_skipped :
    generateExpressionsForRule ruleAll [addr10] 0 =
      Except.error "unsupported protocol: all" ∧
    ApplyRules [ruleAll] [(1, [addr10])] picks0 = [] :=
  ⟨rfl, rfl⟩

/-- **C6, counterexample.** `Validate` and the compiler's source-address
lowering do not coincide in either direction: the lowering accepts the
reversed IPv4 range `10.0.0.2..10.0.0.1` that `Validate` rejects (it
performs no order check), and `Validate` accepts the IPv6 literal `::1`
as an `ip` source that the lowering rejects (`To4` fails). -/
theorem C6_validate_lowering_mismatch :
    (SourceDefinition.Validate sdRevRange = false ∧
     exceptOk (genSourceExprs sdRevRange) = true) ∧
    (SourceDefinition.Validate sdV6 = true ∧
     exceptOk (genSourceExprs sdV6) = false) := by
  refine ⟨⟨?_, ?_⟩, ?_, ?_⟩ <;> decide

/-- **C6, amended.** Per type: on `subnet`, `Validate` succeeds exactly
when the lowering does (both are CIDR parseability); on `ip`, the
lowering succeeds exactly when the literal parses to an IPv4 address —
which implies `Validate`, but not conversely (IPv6); on `range`, the
lowering succeeds exactly when both endpoints parse to IPv4 addresses,
with no start ≤ end check, so it neither implies nor is implied by
`Validate`. -/
theorem C6_amended_validate_vs_lowering (s : SourceDefinition) :
    (s.type = "subnet" →
      (SourceDefinition.Validate s = true ↔ exceptOk (genSourceExprs s) = true)) ∧
    (s.type = "ip" →
      (exceptOk (genSourceExprs s) = true ↔
        ((parseIP s.ipAddress).bind to4).isSome = true)) ∧
    (s.type = "ip" → exceptOk (genSourceExprs s) = true →
      SourceDefinition.Validate s = true) ∧
    (s.type = "range" →
      (exceptOk (genSourceExprs s) = true ↔
        (((parseIP s.rangeStart).bind to4).isSome = true ∧
         ((parseIP s.rangeEnd).bind to4).isSome = true))) := by
  refine ⟨?_, ?_, ?_, ?_⟩
  · intro ht
    unfold SourceDefinition.Validate genSourceExprs
    rw [ht]
    cases h : parseCIDR s.subnet <;> simp [exceptOk, h]
  · intro ht
    unfold genSourceExprs
    rw [ht]
    cases h1 : parseIP s.ipAddress
    · simp [exceptOk, h1]
    · rename_i ip
      cases h2 : to4 ip <;> simp [exceptOk, h1, h2]
  · intro ht hok
    unfold SourceDefinition.Validate
    rw [ht]
    unfold genSourceExprs at hok
    rw [ht] at hok
    cases h1 : parseIP s.ipAddress
    · rw [h1] at hok; simp [exceptOk] at hok
    · simp [h1]
  · intro ht
    unfold genSourceExprs
    rw [ht]
    cases h1 : (parseIP s.rangeStart).bind to4 <;>
      cases h2 : (parseIP s.rangeEnd).bind to4 <;>
        simp [exceptOk, h1, h2]

/-- Witness for the amended C6 at a concrete subnet input. -/
theorem C6_amended_validate_vs_lowering_witness :
    SourceDefinition.Validate sdSubnet = true ↔
      exceptOk (genSourceExprs sdSubnet) = true :=
  (C6_amended_validate_vs_lowering sdSubnet).1 rfl

/-- **C2, counterexample.** `GetActiveRules` sorts with the single SQL
key `priority DESC`; with two enabled rules of equal priority (ids 1 and
2) the output that lists id 2 before id 1 satisfies the query contract,
so the claimed id-ascending tie-break does not hold of the list fed to
the compiler. -/
theorem C2_tie_not_id_ordered :
    GetActiveRulesAdmits stTie [ruleP5b, ruleP5a] ∧
    ¬ List.Pairwise idAscOnTies [ruleP5b, ruleP5a] := by
  constructor
  · unfold GetActiveRulesAdmits priorityDescSorted
    exact ⟨by decide, by decide⟩
  · unfold idAscOnTies
    decide

/-- **C2, amended.** The rule list fed to the compiler is exactly the
enabled rules sorted by descending priority, but the order of an
equal-priority pair is not determined: both relative orders are
admissible results of the store's query, so the compile order is not a
total deterministic order and in particular not tie-broken by rule id. -/
theorem C2_amended_tie_order_not_determined :
    GetActiveRulesAdmits stTie [ruleP5a, ruleP5b] ∧
    GetActiveRulesAdmits stTie [ruleP5b, ruleP5a] ∧
    [ruleP5a, ruleP5b] ≠ [ruleP5b, ruleP5a] := by
  unfold GetActiveRulesAdmits priorityDescSorted
  exact ⟨⟨by decide, by decide⟩, ⟨by decide, by decide⟩, by decide⟩

/-- In-use refusal of `Service.DeleteBackendSet`: when the set exists
and some rule references it, the call returns the counted error message
and the state is untouched. -/
theorem DeleteBackendSet_inuse (st : DBState) (id : Nat) (cb : String)
    (opFails ccFails : Bool)
    (hfind : (st.backendSets.find? (fun x => x.id = id)).isSome)
    (hcount : 0 < (st.rules.filter (fun r => r.backendSetID = id)).length) :
    DeleteBackendSet st id cb opFails ccFails =
      (some ("cannot delete backend set: it is used by " ++
        toString (st.rules.filter (fun r => r.backendSetID = id)).length ++
        " rules"), st) := by
  obtain ⟨bs, hbs⟩ := Option.isSome_iff_exists.mp hfind
  unfold DeleteBackendSet
  rw [hbs]
  simp [hcount]

/-- In-use refusal of `Service.DeleteSourceDefinition`, symmetrically. -/
theorem DeleteSourceDefinition_inuse (st : DBState) (id : Nat) (cb : String)
    (opFails ccFails : Bool)
    (hfind : (st.sourceDefinitions.find? (fun x => x.id = id)).isSome)
    (hcount : 0 < (st.rules.filter (fun r => r.sourceDefinitionID = id)).length) :
    DeleteSourceDefinition st id cb opFails ccFails =
      (some ("cannot delete source definition: it is used by " ++
        toString (st.rules.filter (fun r => r.sourceDefinitionID = id)).length ++
        " rules"), st) := by
  obtain ⟨sd, hsd⟩ := Option.isSome_iff_exists.mp hfind
  unfold DeleteSourceDefinition
  rw [hsd]
  simp [hcount]

/-- **C3, counterexample.** With BackendSet 1 referenced by one rule,
`DELETE /api/backend-sets/1` produces the claimed message and leaves the
set stored, but the handler maps every store error to HTTP 500 — the
status is 500, not the claimed 400. -/
theorem C3_inuse_delete_returns_500_not_400 :
    deleteBackendSetHandler stC3 1 "10.9.9.9" false false =
      (⟨500, some "cannot delete backend set: it is used by 1 rules"⟩, stC3) ∧
    (deleteBackendSetHandler stC3 1 "10.9.9.9" false false).1.status ≠ 400 :=
  ⟨rfl, by decide⟩

/-- **C3, amended.** For every BackendSet referenced by at least one
rule, the DELETE request returns HTTP **500** with the message
`cannot delete backend set: it is used by <n> rules` and the store state
(the BackendSet included) is unchanged. -/
theorem C3_amended_inuse_delete_500 (st : DBState) (id : Nat) (ip : String)
    (opFails ccFails : Bool)
    (hfind : (st.backendSets.find? (fun x => x.id = id)).isSome)
    (hcount : 0 < (st.rules.filter (fun r => r.backendSetID = id)).length) :
    deleteBackendSetHandler st id ip opFails ccFails =
      (⟨500, some ("cannot delete backend set: it is used by " ++
        toString (st.rules.filter (fun r => r.backendSetID = id)).length ++
        " rules")⟩, st) := by
  unfold deleteBackendSetHandler
  rw [DeleteBackendSet_inuse st id ip opFails ccFails hfind hcount]

/-- Witness for the amended C3 at the concrete one-rule store. -/
theorem C3_amended_inuse_delete_500_witness :
    deleteBackendSetHandler stC3 1 "10.9.9.9" true true =
      (⟨500, some "cannot delete backend set: it is used by 1 rules"⟩, stC3) :=
  C3_amended_inuse_delete_500 stC3 1 "10.9.9.9" true true (by decide) (by decide)

/-- **C4.** Deleting a SourceDefinition or BackendSet referenced by any
rule (the reference count ignores the enabled flag) returns the in-use
error and returns the store state unchanged — entity, associations and
rules exactly as before. -/
theorem C4_referenced_delete_refused (st : DBState) (id : Nat) (cb : String)
    (opFails ccFails : Bool) :
    ((st.backendSets.find? (fun x => x.id = id)).isSome →
      0 < (st.rules.filter (fun r => r.backendSetID = id)).length →
      DeleteBackendSet st id cb opFails ccFails =
        (some ("cannot delete backend set: it is used by " ++
          toString (st.rules.filter (fun r => r.backendSetID = id)).length ++
          " rules"), st)) ∧
    ((st.sourceDefinitions.find? (fun x => x.id = id)).isSome →
      0 < (st.rules.filter (fun r => r.sourceDefinitionID = id)).length →
      DeleteSourceDefinition st id cb opFails ccFails =
        (some ("cannot delete source definition: it is used by " ++
          toString (st.rules.filter (fun r => r.sourceDefinitionID = id)).length ++
          " rules"), st)) :=
  ⟨fun h1 h2 => DeleteBackendSet_inuse st id cb opFails ccFails h1 h2,
   fun h1 h2 => DeleteSourceDefinition_inuse st id cb opFails ccFails h1 h2⟩

/-- Witness for C4: in the concrete store both deletes are refused with
the counted message and the state is returned unchanged.  (`stC3`'s one
rule references BackendSet 1 and SourceDefinition 1.) -/
theorem C4_referenced_delete_refused_witness :
    DeleteBackendSet stC3 1 "c" false false =
      (some "cannot delete backend set: it is used by 1 rules", stC3) ∧
    DeleteSourceDefinition stC3 1 "c" false false =
      (some "cannot delete source definition: it is used by 1 rules", stC3) :=
  ⟨(C4_referenced_delete_refused stC3 1 "c" false false).1 (by decide) (by decide),
   (C4_referenced_delete_refused stC3 1 "c" false false).2 (by decide) (by decide)⟩

/-- **C5, counterexample.** `LogAvailabilityChange` runs two separately
autocommitted statements, not one transaction: when the log insert fails
(`createFails`), the call errors yet the address flag update has already
persisted (`available` flipped to `false`, `lastChecked` stamped) while
no `AvailabilityLog` row exists — not "both or neither". -/
theorem C5_log_not_atomic :
    (LogAvailabilityChange stC5 1 false "dial timeout" 42 false true).1 =
      some "insert failed" ∧
    (LogAvailabilityChange stC5 1 false "dial timeout" 42 false true).2.addresses =
      [⟨1, 1, "10.0.0.10", 80, false, 42⟩] ∧
    (LogAvailabilityChange stC5 1 false "dial timeout" 42 false true).2.availabilityLogs
      = [] :=
  ⟨rfl, rfl, rfl⟩

/-- **C5, amended.** The flag update and the log append are sequential
autocommitted statements: if the update fails nothing changes; if the
update succeeds and the insert fails the updated flag persists alone; if
both succeed exactly one log row is appended after the update.  The
one-way guarantee holds: whenever the log list changed, the address
update is in place. -/
theorem C5_amended_two_statement_sequencing (st : DBState) (addressID : Nat)
    (available : Bool) (checkError : String) (now : Nat)
    (updateFails createFails : Bool) :
    (updateFails = true →
      LogAvailabilityChange st addressID available checkError now updateFails
        createFails = (some "update failed", st)) ∧
    (updateFails = false → createFails = true →
      LogAvailabilityChange st addressID available checkError now updateFails
        createFails =
        (some "insert failed", updateAvailability st addressID available now)) ∧
    (updateFails = false → createFails = false →
      LogAvailabilityChange st addressID available checkError now updateFails
        createFails =
        (none, { updateAvailability st addressID available now with
                 availabilityLogs := st.availabilityLogs ++
                   [⟨st.nextID, addressID, available, now, checkError⟩],
                 nextID := st.nextID + 1 })) ∧
    ((LogAvailabilityChange st addressID available checkError now updateFails
        createFails).2.availabilityLogs ≠ st.availabilityLogs →
      (LogAvailabilityChange st addressID available checkError now updateFails
        createFails).2.addresses =
        (updateAvailability st addressID available now).addresses) := by
  refine ⟨?_, ?_, ?_, ?_⟩
  · intro h; subst h; rfl
  · intro h1 h2; subst h1; subst h2; rfl
  · intro h1 h2; subst h1; subst h2; rfl
  · intro hne
    cases hu : updateFails
    · cases hc : createFails
      · simp [LogAvailabilityChange, hu, hc]
      · simp [LogAvailabilityChange, hu, hc]
    · exfalso
      apply hne
      simp [LogAvailabilityChange, hu]

/-- Witness for the amended C5 at a concrete failing update. -/
theorem C5_amended_two_statement_sequencing_witness :
    LogAvailabilityChange stC5 1 true "" 0 true false = (some "update failed", stC5) :=
  (C5_amended_two_statement_sequencing stC5 1 true "" 0 true false).1 rfl

/-- **C9, counterexample.** Neither rule endpoint validates the
destination port: `createRule` and `updateRule` check only that the two
foreign-key ids are non-zero.  A POST whose destination port is 0 —
outside 1..65535 — is accepted with 201 and persisted with that port,
and a PUT carrying port 0 for the stored rule 1 is accepted with 200
and overwrites the stored rule with port 0. -/
theorem C9_out_of_range_port_accepted :
    ((createRuleHandler stEmpty rulePort0 "c" false false).1.status = 201 ∧
     (createRuleHandler stEmpty rulePort0 "c" false false).2.rules =
       [⟨1, 1, sdIP1, 0, "tcp", 1, 0, true⟩]) ∧
    ((updateRuleHandler stC3 1 rulePort0 "c" false false).1.status = 200 ∧
     (updateRuleHandler stC3 1 rulePort0 "c" false false).2.rules =
       [⟨1, 1, sdIP1, 0, "tcp", 1, 0, true⟩]) :=
  ⟨⟨rfl, rfl⟩, ⟨rfl, rfl⟩⟩

/-- **C9, amended.** Neither `POST /api/rules` nor `PUT /api/rules/:id`
performs destination-port range validation: any request with non-zero
foreign-key ids is answered 201 (create) or 200 (update) and its rule
persisted with the port exactly as sent; the compiler then truncates
the port to 16 bits, so port 70000 compiles identically to port 4464
(70000 mod 65536). -/
theorem C9_amended_no_port_validation (st : DBState) (body : Rule)
    (id : Nat) (cb : String) (h1 : body.sourceDefinitionID ≠ 0)
    (h2 : body.backendSetID ≠ 0) :
    ((createRuleHandler st body cb false false).1.status = 201 ∧
     (createRuleHandler st body cb false false).2.rules =
       st.rules ++ [{ body with id := createdID st body.id }]) ∧
    ((updateRuleHandler st id body cb false false).1.status = 200 ∧
     (updateRuleHandler st id body cb false false).2.rules =
       (saveRule st { body with id := id }).1.rules) ∧
    generateExpressionsForRule rulePort70000 [addr10] 0 =
      generateExpressionsForRule rulePort4464 [addr10] 0 := by
  refine ⟨?_, ?_, rfl⟩
  · unfold createRuleHandler
    rw [if_neg h1, if_neg h2]
    simp [CreateRule, finishTx]
  · unfold updateRuleHandler
    rw [if_neg h1, if_neg h2]
    simp [UpdateRule, finishTx]

/-- Witness for the amended C9: port 70000 is accepted by both
endpoints and persisted unchanged. -/
theorem C9_amended_no_port_validation_witness :
    ((createRuleHandler stC3 rulePort70000 "c" false false).1.status = 201 ∧
     (createRuleHandler stC3 rulePort70000 "c" false false).2.rules =
       stC3.rules ++ [{ rulePort70000 with
                        id := createdID stC3 rulePort70000.id }]) ∧
    ((updateRuleHandler stC3 1 rulePort70000 "c" false false).1.status = 200 ∧
     (updateRuleHandler stC3 1 rulePort70000 "c" false false).2.rules =
       (saveRule stC3 { rulePort70000 with id := 1 }).1.rules) ∧
    generateExpressionsForRule rulePort70000 [addr10] 0 =
      generateExpressionsForRule rulePort4464 [addr10] 0 :=
  C9_amended_no_port_validation stC3 rulePort70000 1 "c" (by decide) (by decide)

/-- `find?` keeps its first hit across an append. -/
theorem find?_append_of_some {α : Type} (p : α → Bool) (l1 l2 : List α)
    (a : α) (h : l1.find? p = some a) : (l1 ++ l2).find? p = some a := by
  induction l1 with
  | nil => simp at h
  | cons x xs ih =>
    cases hx : p x
    · rw [List.find?_cons_of_neg _ (by simp [hx])] at h
      rw [List.cons_append, List.find?_cons_of_neg _ (by simp [hx])]
      exact ih h
    · rw [List.find?_cons_of_pos _ (by simp [hx])] at h
      rw [List.cons_append, List.find?_cons_of_pos _ (by simp [hx])]
      exact h

/-- Replacing every id-matching address and searching for that id finds
the replacement, provided a match existed. -/
theorem find?_replace_by_id (l : List Address) (id : Nat) (a : Address)
    (ha : a.id = id) (e : Address)
    (he : l.find? (fun x => x.id = id) = some e) :
    (l.map (fun x => if x.id = id then a else x)).find? (fun x => x.id = id) =
      some a := by
  induction l with
  | nil => simp at he
  | cons y ys ih =>
    by_cases hy : y.id = id
    · rw [List.map_cons, if_pos hy,
          List.find?_cons_of_pos _ (by simp [ha])]
    · rw [List.map_cons, if_neg hy,
          List.find?_cons_of_neg _ (by simp [hy])]
      rw [List.find?_cons_of_neg _ (by simp [hy])] at he
      exact ih he

/-- A successful `Service.UpdateAddress` stores exactly the `Save`d
address list. -/
theorem UpdateAddress_ok_addresses (st : DBState) (a : Address) (cb : String)
    (opFails ccFails : Bool) (st' : DBState)
    (h : UpdateAddress st a cb opFails ccFails = (none, st')) :
    st'.addresses = (saveAddress st a).1.addresses := by
  unfold UpdateAddress at h
  by_cases hop : opFails
  · rw [if_pos hop] at h
    exact absurd h (by simp)
  · rw [if_neg hop] at h
    unfold finishTx at h
    by_cases hcc : ccFails
    · rw [if_pos hcc] at h
      exact absurd h (by simp)
    · rw [if_neg hcc] at h
      have h2 := congrArg (fun p => p.2.addresses) h
      simpa using h2.symm

/-- `Save`-then-lookup preserves the first match's `BackendID` whenever
the saved row carries the same `BackendID` as the first match. -/
theorem backendOf_save (st : DBState) (a e : Address)
    (hfind : st.addresses.find? (fun x => x.id = a.id) = some e)
    (hb : a.backendID = e.backendID) :
    (((saveAddress st a).1.addresses.find? (fun x => x.id = a.id)).map
        (fun x => x.backendID)) =
    ((st.addresses.find? (fun x => x.id = a.id)).map (fun x => x.backendID)) := by
  by_cases h0 : a.id = 0
  · have hsave : (saveAddress st a).1.addresses =
        st.addresses ++ [{ a with id := st.nextID }] := by
      unfold saveAddress
      rw [if_pos h0]
    rw [hsave, find?_append_of_some _ _ _ e hfind, hfind]
  · have hsave : (saveAddress st a).1.addresses =
        st.addresses.map (fun x => if x.id = a.id then a else x) := by
      unfold saveAddress
      rw [if_neg h0]
    rw [hsave, find?_replace_by_id _ _ _ rfl e hfind, hfind]
    simp [hb]

/-- **C10.** Every successful (HTTP 200) `PUT /api/addresses/:id` leaves
the stored address homed at its previous backend: the handler overwrites
the body's `BackendID` with the existing row's before saving, so the
update endpoint can never re-home an address. -/
theorem C10_update_address_keeps_backend (st : DBState) (id : Nat)
    (body : Address) (ip : String) (opFails ccFails : Bool)
    (h200 : (updateAddressHandler st id body ip opFails ccFails).1.status = 200) :
    backendOf (updateAddressHandler st id body ip opFails ccFails).2 id =
      backendOf st id := by
  unfold updateAddressHandler at h200 ⊢
  cases hfind : st.addresses.find? (fun x => x.id = id) with
  | none => simp [hfind] at h200
  | some existing =>
    simp only [hfind] at h200 ⊢
    cases hp : (parseIP body.ip).isNone with
    | true => simp [hp] at h200
    | false =>
      simp only [hp, Bool.false_eq_true, if_false] at h200 ⊢
      cases hupd : UpdateAddress st
          { body with id := id, backendID := existing.backendID } ip
          opFails ccFails with
      | mk err st' =>
        simp only [hupd] at h200 ⊢
        cases err with
        | some msg => simp at h200
        | none =>
          show backendOf st' id = backendOf st id
          have haddr := UpdateAddress_ok_addresses st
            { body with id := id, backendID := existing.backendID } ip
            opFails ccFails st' hupd
          unfold backendOf
          rw [haddr]
          exact backendOf_save st
            { body with id := id, backendID := existing.backendID } existing
            hfind rfl

/-- Witness for C10: the request body carries `backend_id = 9`, the
stored row keeps its original backend 7. -/
theorem C10_update_address_keeps_backend_witness :
    backendOf (updateAddressHandler stC10 1 addrBody "c" false false).2 1 =
      backendOf stC10 1 :=
  C10_update_address_keeps_backend stC10 1 addrBody "c" false false (by decide)

/-- A committed `finishTx` appended exactly the one `ConfigChange` row,
provided the mutation itself left `configChanges` alone. -/
theorem finishTx_ccAppended (st st1 : DBState) (ck et : String) (eid : Nat)
    (d cb : String) (st' : DBState)
    (hcc : st1.configChanges = st.configChanges)
    (h : finishTx st st1 false ck et eid d cb = (none, st')) :
    ccAppended st st' ck et eid := by
  unfold finishTx at h
  have h2 : ({ st1 with
      configChanges := st1.configChanges ++ [mkConfigChange st1 ck et eid d cb],
      nextID := st1.nextID + 1 } : DBState) = st' := congrArg Prod.snd h
  subst h2
  refine ⟨?_, ?_⟩
  · show (st1.configChanges ++ [mkConfigChange st1 ck et eid d cb]).take
        st.configChanges.length = st.configChanges
    rw [hcc, List.take_left]
  · show ((st1.configChanges ++ [mkConfigChange st1 ck et eid d cb]).drop
        st.configChanges.length).map ccKey = [(ck, et, eid)]
    rw [hcc, List.drop_left]
    rfl

theorem saveBackend_snd (st : DBState) (b : Backend) :
    (saveBackend st b).2 = createdID st b.id := by
  by_cases h0 : b.id = 0 <;> simp [saveBackend, createdID, h0]

theorem saveAddress_snd (st : DBState) (a : Address) :
    (saveAddress st a).2 = createdID st a.id := by
  by_cases h0 : a.id = 0 <;> simp [saveAddress, createdID, h0]

theorem saveBackendSet_snd (st : DBState) (bs : BackendSet) :
    (saveBackendSet st bs).2 = createdID st bs.id := by
  by_cases h0 : bs.id = 0 <;> simp [saveBackendSet, createdID, h0]

theorem saveSourceDefinition_snd (st : DBState) (sd : SourceDefinition) :
    (saveSourceDefinition st sd).2 = createdID st sd.id := by
  by_cases h0 : sd.id = 0 <;> simp [saveSourceDefinition, createdID, h0]

theorem saveRule_snd (st : DBState) (r : Rule) :
    (saveRule st r).2 = createdID st r.id := by
  by_cases h0 : r.id = 0 <;> simp [saveRule, createdID, h0]

theorem CreateBackend_cc (st : DBState) (b : Backend) (cb : String)
    (opFails ccFails : Bool) (st' : DBState)
    (h : CreateBackend st b cb opFails ccFails = (none, st')) :
    ccAppended st st' "create" "backend" (createdID st b.id) := by
  cases opFails with
  | true => exact absurd h (by simp [CreateBackend])
  | false =>
    cases ccFails with
    | true => exact absurd h (by simp [CreateBackend, finishTx])
    | false =>
      refine finishTx_ccAppended st _ "create" "backend" (createdID st b.id)
        _ cb st' ?_ h
      rfl

theorem UpdateBackend_cc (st : DBState) (b : Backend) (cb : String)
    (opFails ccFails : Bool) (st' : DBState)
    (h : UpdateBackend st b cb opFails ccFails = (none, st')) :
    ccAppended st st' "update" "backend" (createdID st b.id) := by
  cases opFails with
  | true => exact absurd h (by simp [UpdateBackend])
  | false =>
    cases ccFails with
    | true => exact absurd h (by simp [UpdateBackend, finishTx])
    | false =>
      simp only [UpdateBackend] at h
      rw [saveBackend_snd] at h
      refine finishTx_ccAppended st _ "update" "backend" (createdID st b.id)
        _ cb st' ?_ h
      by_cases h0 : b.id = 0 <;> simp [saveBackend, h0]

theorem DeleteBackend_cc (st : DBState) (id : Nat) (cb : String)
    (opFails ccFails : Bool) (st' : DBState)
    (h : DeleteBackend st id cb opFails ccFails = (none, st')) :
    ccAppended st st' "delete" "backend" id := by
  unfold DeleteBackend at h
  cases hf : st.backends.find? (fun x => x.id = id) with
  | none => simp only [hf] at h; exact absurd h (by simp)
  | some backend =>
    simp only [hf] at h
    cases opFails with
    | true => exact absurd h (by simp)
    | false =>
      cases ccFails with
      | true => exact absurd h (by simp [finishTx])
      | false =>
        refine finishTx_ccAppended st _ "delete" "backend" id _ cb st' ?_ h
        rfl

theorem CreateAddress_cc (st : DBState) (backendID : Nat) (a : Address)
    (cb : String) (opFails ccFails : Bool) (st' : DBState)
    (h : CreateAddress st backendID a cb opFails ccFails = (none, st')) :
    ccAppended st st' "create" "address" (createdID st a.id) := by
  cases opFails with
  | true => exact absurd h (by simp [CreateAddress])
  | false =>
    cases ccFails with
    | true => exact absurd h (by simp [CreateAddress, finishTx])
    | false =>
      refine finishTx_ccAppended st _ "create" "address" (createdID st a.id)
        _ cb st' ?_ h
      rfl

theorem UpdateAddress_cc (st : DBState) (a : Address) (cb : String)
    (opFails ccFails : Bool) (st' : DBState)
    (h : UpdateAddress st a cb opFails ccFails = (none, st')) :
    ccAppended st st' "update" "address" (createdID st a.id) := by
  cases opFails with
  | true => exact absurd h (by simp [UpdateAddress])
  | false =>
    cases ccFails with
    | true => exact absurd h (by simp [UpdateAddress, finishTx])
    | false =>
      simp only [UpdateAddress] at h
      rw [saveAddress_snd] at h
      refine finishTx_ccAppended st _ "update" "address" (createdID st a.id)
        _ cb st' ?_ h
      by_cases h0 : a.id = 0 <;> simp [saveAddress, h0]

theorem DeleteAddress_cc (st : DBState) (id : Nat) (cb : String)
    (opFails ccFails : Bool) (st' : DBState)
    (h : DeleteAddress st id cb opFails ccFails = (none, st')) :
    ccAppended st st' "delete" "address" id := by
  unfold DeleteAddress at h
  cases hf : st.addresses.find? (fun x => x.id = id) with
  | none => simp only [hf] at h; exact absurd h (by simp)
  | some address =>
    simp only [hf] at h
    cases opFails with
    | true => exact absurd h (by simp)
    | false =>
      cases ccFails with
      | true => exact absurd h (by simp [finishTx])
      | false =>
        refine finishTx_ccAppended st _ "delete" "address" id _ cb st' ?_ h
        rfl

theorem CreateBackendSet_cc (st : DBState) (bs : BackendSet)
    (memberIDs : List Nat) (cb : String) (opFails ccFails : Bool)
    (st' : DBState)
    (h : CreateBackendSet st bs memberIDs cb opFails ccFails = (none, st')) :
    ccAppended st st' "create" "backend_set" (createdID st bs.id) := by
  cases opFails with
  | true => exact absurd h (by simp [CreateBackendSet])
  | false =>
    cases ccFails with
    | true => exact absurd h (by simp [CreateBackendSet, finishTx])
    | false =>
      refine finishTx_ccAppended st _ "create" "backend_set"
        (createdID st bs.id) _ cb st' ?_ h
      rfl

theorem UpdateBackendSet_cc (st : DBState) (bs : BackendSet)
    (memberIDs : List Nat) (cb : String) (opFails ccFails : Bool)
    (st' : DBState)
    (h : UpdateBackendSet st bs memberIDs cb opFails ccFails = (none, st')) :
    ccAppended st st' "update" "backend_set" (createdID st bs.id) := by
  cases opFails with
  | true => exact absurd h (by simp [UpdateBackendSet])
  | false =>
    cases ccFails with
    | true => exact absurd h (by simp [UpdateBackendSet, finishTx])
    | false =>
      simp only [UpdateBackendSet] at h
      rw [saveBackendSet_snd] at h
      refine finishTx_ccAppended st _ "update" "backend_set"
        (createdID st bs.id) _ cb st' ?_ h
      by_cases h0 : bs.id = 0 <;> simp [saveBackendSet, h0]

theorem DeleteBackendSet_cc (st : DBState) (id : Nat) (cb : String)
    (opFails ccFails : Bool) (st' : DBState)
    (h : DeleteBackendSet st id cb opFails ccFails = (none, st')) :
    ccAppended st st' "delete" "backend_set" id := by
  unfold DeleteBackendSet at h
  cases hf : st.backendSets.find? (fun x => x.id = id) with
  | none => simp only [hf] at h; exact absurd h (by simp)
  | some backendSet =>
    simp only [hf] at h
    split at h
    · exact absurd h (by simp)
    · cases opFails with
      | true => exact absurd h (by simp)
      | false =>
        cases ccFails with
        | true => exact absurd h (by simp [finishTx])
        | false =>
          refine finishTx_ccAppended st _ "delete" "backend_set" id _ cb st' ?_ h
          rfl

theorem CreateSourceDefinition_cc (st : DBState) (sd : SourceDefinition)
    (cb : String) (opFails ccFails : Bool) (st' : DBState)
    (h : CreateSourceDefinition st sd cb opFails ccFails = (none, st')) :
    ccAppended st st' "create" "source_definition" (createdID st sd.id) := by
  unfold CreateSourceDefinition at h
  split at h
  · exact absurd h (by simp)
  · cases opFails with
    | true => exact absurd h (by simp)
    | false =>
      cases ccFails with
      | true => exact absurd h (by simp [finishTx])
      | false =>
        refine finishTx_ccAppended st _ "create" "source_definition"
          (createdID st sd.id) _ cb st' ?_ h
        rfl

theorem UpdateSourceDefinition_cc (st : DBState) (sd : SourceDefinition)
    (cb : String) (opFails ccFails : Bool) (st' : DBState)
    (h : UpdateSourceDefinition st sd cb opFails ccFails = (none, st')) :
    ccAppended st st' "update" "source_definition" (createdID st sd.id) := by
  unfold UpdateSourceDefinition at h
  split at h
  · exact absurd h (by simp)
  · cases opFails with
    | true => exact absurd h (by simp)
    | false =>
      cases ccFails with
      | true => exact absurd h (by simp [finishTx])
      | false =>
        rw [← saveSourceDefinition_snd st sd]
        refine finishTx_ccAppended st _ "update" "source_definition"
          ((saveSourceDefinition st sd).2) _ cb st' ?_ h
        by_cases h0 : sd.id = 0 <;> simp [saveSourceDefinition, h0]

theorem DeleteSourceDefinition_cc (st : DBState) (id : Nat) (cb : String)
    (opFails ccFails : Bool) (st' : DBState)
    (h : DeleteSourceDefinition st id cb opFails ccFails = (none, st')) :
    ccAppended st st' "delete" "source_definition" id := by
  unfold DeleteSourceDefinition at h
  cases hf : st.sourceDefinitions.find? (fun x => x.id = id) with
  | none => simp only [hf] at h; exact absurd h (by simp)
  | some sourceDefinition =>
    simp only [hf] at h
    split at h
    · exact absurd h (by simp)
    · cases opFails with
      | true => exact absurd h (by simp)
      | false =>
        cases ccFails with
        | true => exact absurd h (by simp [finishTx])
        | false =>
          refine finishTx_ccAppended st _ "delete" "source_definition" id
            _ cb st' ?_ h
          rfl

theorem CreateRule_cc (st : DBState) (r : Rule) (cb : String)
    (opFails ccFails : Bool) (st' : DBState)
    (h : CreateRule st r cb opFails ccFails = (none, st')) :
    ccAppended st st' "create" "rule" (createdID st r.id) := by
  cases opFails with
  | true => exact absurd h (by simp [CreateRule])
  | false =>
    cases ccFails with
    | true => exact absurd h (by simp [CreateRule, finishTx])
    | false =>
      refine finishTx_ccAppended st _ "create" "rule" (createdID st r.id)
        _ cb st' ?_ h
      rfl

theorem UpdateRule_cc (st : DBState) (r : Rule) (cb : String)
    (opFails ccFails : Bool) (st' : DBState)
    (h : UpdateRule st r cb opFails ccFails = (none, st')) :
    ccAppended st st' "update" "rule" (createdID st r.id) := by
  cases opFails with
  | true => exact absurd h (by simp [UpdateRule])
  | false =>
    cases ccFails with
    | true => exact absurd h (by simp [UpdateRule, finishTx])
    | false =>
      simp only [UpdateRule] at h
      rw [saveRule_snd] at h
      refine finishTx_ccAppended st _ "update" "rule" (createdID st r.id)
        _ cb st' ?_ h
      by_cases h0 : r.id = 0 <;> simp [saveRule, h0]

theorem DeleteRule_cc (st : DBState) (id : Nat) (cb : String)
    (opFails ccFails : Bool) (st' : DBState)
    (h : DeleteRule st id cb opFails ccFails = (none, st')) :
    ccAppended st st' "delete" "rule" id := by
  unfold DeleteRule at h
  cases hf : st.rules.find? (fun x => x.id = id) with
  | none => simp only [hf] at h; exact absurd h (by simp)
  | some rule =>
    simp only [hf] at h
    cases opFails with
    | true => exact absurd h (by simp)
    | false =>
      cases ccFails with
      | true => exact absurd h (by simp [finishTx])
      | false =>
        refine finishTx_ccAppended st _ "delete" "rule" id _ cb st' ?_ h
        rfl

theorem CreateBackend_rollback (st : DBState) (b : Backend) (cb : String)
    (opFails : Bool) : (CreateBackend st b cb opFails true).2 = st := by
  cases opFails <;> rfl

theorem UpdateBackend_rollback (st : DBState) (b : Backend) (cb : String)
    (opFails : Bool) : (UpdateBackend st b cb opFails true).2 = st := by
  cases opFails <;> rfl

theorem DeleteBackend_rollback (st : DBState) (id : Nat) (cb : String)
    (opFails : Bool) : (DeleteBackend st id cb opFails true).2 = st := by
  unfold DeleteBackend
  cases hf : st.backends.find? (fun x => x.id = id) with
  | none => rfl
  | some backend =>
    simp only [hf]
    cases opFails <;> rfl

theorem CreateAddress_rollback (st : DBState) (backendID : Nat) (a : Address)
    (cb : String) (opFails : Bool) :
    (CreateAddress st backendID a cb opFails true).2 = st := by
  cases opFails <;> rfl

theorem UpdateAddress_rollback (st : DBState) (a : Address) (cb : String)
    (opFails : Bool) : (UpdateAddress st a cb opFails true).2 = st := by
  cases opFails <;> rfl

theorem DeleteAddress_rollback (st : DBState) (id : Nat) (cb : String)
    (opFails : Bool) : (DeleteAddress st id cb opFails true).2 = st := by
  unfold DeleteAddress
  cases hf : st.addresses.find? (fun x => x.id = id) with
  | none => rfl
  | some address =>
    simp only [hf]
    cases opFails <;> rfl

theorem CreateBackendSet_rollback (st : DBState) (bs : BackendSet)
    (memberIDs : List Nat) (cb : String) (opFails : Bool) :
    (CreateBackendSet st bs memberIDs cb opFails true).2 = st := by
  cases opFails <;> rfl

theorem UpdateBackendSet_rollback (st : DBState) (bs : BackendSet)
    (memberIDs : List Nat) (cb : String) (opFails : Bool) :
    (UpdateBackendSet st bs memberIDs cb opFails true).2 = st := by
  cases opFails <;> rfl

theorem DeleteBackendSet_rollback (st : DBState) (id : Nat) (cb : String)
    (opFails : Bool) : (DeleteBackendSet st id cb opFails true).2 = st := by
  unfold DeleteBackendSet
  cases hf : st.backendSets.find? (fun x => x.id = id) with
  | none => rfl
  | some backendSet =>
    simp only [hf]
    split
    · rfl
    · cases opFails <;> rfl

theorem CreateSourceDefinition_rollback (st : DBState) (sd : SourceDefinition)
    (cb : String) (opFails : Bool) :
    (CreateSourceDefinition st sd cb opFails true).2 = st := by
  unfold CreateSourceDefinition
  split
  · rfl
  · cases opFails <;> rfl

theorem UpdateSourceDefinition_rollback (st : DBState) (sd : SourceDefinition)
    (cb : String) (opFails : Bool) :
    (UpdateSourceDefinition st sd cb opFails true).2 = st := by
  unfold UpdateSourceDefinition
  split
  · rfl
  · cases opFails <;> rfl

theorem DeleteSourceDefinition_rollback (st : DBState) (id : Nat) (cb : String)
    (opFails : Bool) : (DeleteSourceDefinition st id cb opFails true).2 = st := by
  unfold DeleteSourceDefinition
  cases hf : st.sourceDefinitions.find? (fun x => x.id = id) with
  | none => rfl
  | some sourceDefinition =>
    simp only [hf]
    split
    · rfl
    · cases opFails <;> rfl

theorem CreateRule_rollback (st : DBState) (r : Rule) (cb : String)
    (opFails : Bool) : (CreateRule st r cb opFails true).2 = st := by
  cases opFails <;> rfl

theorem UpdateRule_rollback (st : DBState) (r : Rule) (cb : String)
    (opFails : Bool) : (UpdateRule st r cb opFails true).2 = st := by
  cases opFails <;> rfl

theorem DeleteRule_rollback (st : DBState) (id : Nat) (cb : String)
    (opFails : Bool) : (DeleteRule st id cb opFails true).2 = st := by
  unfold DeleteRule
  cases hf : st.rules.find? (fun x => x.id = id) with
  | none => rfl
  | some rule =>
    simp only [hf]
    cases opFails <;> rfl

/-- **C8.** Every successful create/update/delete of a Backend, Address,
BackendSet, SourceDefinition or Rule through the store appends — inside
the same transaction — exactly one `ConfigChange` row whose change kind,
entity kind and entity id match the mutation; and when the
`ConfigChange` insert fails the whole transaction rolls back, leaving
the state exactly as before.  One success conjunct and one rollback
conjunct per operation. -/
theorem C8_each_mutation_logs_one_config_change
    (st st' : DBState) (cb : String) (opFails ccFails : Bool)
    (b : Backend) (a : Address) (backendID id : Nat) (bs : BackendSet)
    (memberIDs : List Nat) (sd : SourceDefinition) (r : Rule) :
    ((CreateBackend st b cb opFails ccFails = (none, st') →
        ccAppended st st' "create" "backend" (createdID st b.id)) ∧
      (CreateBackend st b cb opFails true).2 = st) ∧
    ((UpdateBackend st b cb opFails ccFails = (none, st') →
        ccAppended st st' "update" "backend" (createdID st b.id)) ∧
      (UpdateBackend st b cb opFails true).2 = st) ∧
    ((DeleteBackend st id cb opFails ccFails = (none, st') →
        ccAppended st st' "delete" "backend" id) ∧
      (DeleteBackend st id cb opFails true).2 = st) ∧
    ((CreateAddress st backendID a cb opFails ccFails = (none, st') →
        ccAppended st st' "create" "address" (createdID st a.id)) ∧
      (CreateAddress st backendID a cb opFails true).2 = st) ∧
    ((UpdateAddress st a cb opFails ccFails = (none, st') →
        ccAppended st st' "update" "address" (createdID st a.id)) ∧
      (UpdateAddress st a cb opFails true).2 = st) ∧
    ((DeleteAddress st id cb opFails ccFails = (none, st') →
        ccAppended st st' "delete" "address" id) ∧
      (DeleteAddress st id cb opFails true).2 = st) ∧
    ((CreateBackendSet st bs memberIDs cb opFails ccFails = (none, st') →
        ccAppended st st' "create" "backend_set" (createdID st bs.id)) ∧
      (CreateBackendSet st bs memberIDs cb opFails true).2 = st) ∧
    ((UpdateBackendSet st bs memberIDs cb opFails ccFails = (none, st') →
        ccAppended st st' "update" "backend_set" (createdID st bs.id)) ∧
      (UpdateBackendSet st bs memberIDs cb opFails true).2 = st) ∧
    ((DeleteBackendSet st id cb opFails ccFails = (none, st') →
        ccAppended st st' "delete" "backend_set" id) ∧
      (DeleteBackendSet st id cb opFails true).2 = st) ∧
    ((CreateSourceDefinition st sd cb opFails ccFails = (none, st') →
        ccAppended st st' "create" "source_definition" (createdID st sd.id)) ∧
      (CreateSourceDefinition st sd cb opFails true).2 = st) ∧
    ((UpdateSourceDefinition st sd cb opFails ccFails = (none, st') →
        ccAppended st st' "update" "source_definition" (createdID st sd.id)) ∧
      (UpdateSourceDefinition st sd cb opFails true).2 = st) ∧
    ((DeleteSourceDefinition st id cb opFails ccFails = (none, st') →
        ccAppended st st' "delete" "source_definition" id) ∧
      (DeleteSourceDefinition st id cb opFails true).2 = st) ∧
    ((CreateRule st r cb opFails ccFails = (none, st') →
        ccAppended st st' "create" "rule" (createdID st r.id)) ∧
      (CreateRule st r cb opFails true).2 = st) ∧
    ((UpdateRule st r cb opFails ccFails = (none, st') →
        ccAppended st st' "update" "rule" (createdID st r.id)) ∧
      (UpdateRule st r cb opFails true).2 = st) ∧
    ((DeleteRule st id cb opFails ccFails = (none, st') →
        ccAppended st st' "delete" "rule" id) ∧
      (DeleteRule st id cb opFails true).2 = st) :=
  ⟨⟨CreateBackend_cc st b cb opFails ccFails st',
    CreateBackend_rollback st b cb opFails⟩,
   ⟨UpdateBackend_cc st b cb opFails ccFails st',
    UpdateBackend_rollback st b cb opFails⟩,
   ⟨DeleteBackend_cc st id cb opFails ccFails st',
    DeleteBackend_rollback st id cb opFails⟩,
   ⟨CreateAddress_cc st backendID a cb opFails ccFails st',
    CreateAddress_rollback st backendID a cb opFails⟩,
   ⟨UpdateAddress_cc st a cb opFails ccFails st',
    UpdateAddress_rollback st a cb opFails⟩,
   ⟨DeleteAddress_cc st id cb opFails ccFails st',
    DeleteAddress_rollback st id cb opFails⟩,
   ⟨CreateBackendSet_cc st bs memberIDs cb opFails ccFails st',
    CreateBackendSet_rollback st bs memberIDs cb opFails⟩,
   ⟨UpdateBackendSet_cc st bs memberIDs cb opFails ccFails st',
    UpdateBackendSet_rollback st bs memberIDs cb opFails⟩,
   ⟨DeleteBackendSet_cc st id cb opFails ccFails st',
    DeleteBackendSet_rollback st id cb opFails⟩,
   ⟨CreateSourceDefinition_cc st sd cb opFails ccFails st',
    CreateSourceDefinition_rollback st sd cb opFails⟩,
   ⟨UpdateSourceDefinition_cc st sd cb opFails ccFails st',
    UpdateSourceDefinition_rollback st sd cb opFails⟩,
   ⟨DeleteSourceDefinition_cc st id cb opFails ccFails st',
    DeleteSourceDefinition_rollback st id cb opFails⟩,
   ⟨CreateRule_cc st r cb opFails ccFails st',
    CreateRule_rollback st r cb opFails⟩,
   ⟨UpdateRule_cc st r cb opFails ccFails st',
    UpdateRule_rollback st r cb opFails⟩,
   ⟨DeleteRule_cc st id cb opFails ccFails st',
    DeleteRule_rollback st id cb opFails⟩⟩

/-- Witness for C8: a concrete backend creation appends exactly the one
`("create", "backend", 1)` change row. -/
theorem C8_each_mutation_logs_one_config_change_witness :
    ccAppended stEmpty (CreateBackend stEmpty backendW "w" false false).2
      "create" "backend" 1 :=
  (C8_each_mutation_logs_one_config_change stEmpty
    (CreateBackend stEmpty backendW "w" false false).2 "w" false false
    backendW addrBody 0 0 bsS [] sdIP1 ruleTcp).1.1 rfl

end B2B
